import Mathlib

/-
Verification of the hanSolo subscription manager (src/hanSolo/__init__.py).

The development shallowly embeds the module: byte strings are List Nat
(each entry a byte value below 256), the hexadecimal token stream consumed
by the decoder is List Char, fallible operations return Option, and the
asynchronous connection loop is a function over an explicit list of
receive events.
-/

namespace HanSolo

/-- Models the Python slice s[a:b] for nonnegative indices: clamping, never
failing. -/
def pySlice {α : Type} (l : List α) (a b : Nat) : List α :=
  (l.take b).drop a

/-- Value of one hexadecimal digit character, upper or lower case, as
accepted by the Python built-in int with base 16. -/
def hexCharVal (c : Char) : Option Nat :=
  if '0' ≤ c ∧ c ≤ '9' then some (c.toNat - 48)
  else if 'a' ≤ c ∧ c ≤ 'f' then some (c.toNat - 87)
  else if 'A' ≤ c ∧ c ≤ 'F' then some (c.toNat - 55)
  else none

/-- Digit values of a hexadecimal string, or none when a character is not a
hexadecimal digit. -/
def hexDigits? : List Char → Option (List Nat)
  | [] => some []
  | c :: t =>
    match hexCharVal c, hexDigits? t with
    | some v, some vs => some (v :: vs)
    | _, _ => none

/-- Models int(s, 16): none models the ValueError raised on the empty
string or on a character that is not a digit. The model is restricted to
the hexadecimal alphabet; the framing layer only ever produces uppercase
hexadecimal digits, so the extra leniencies of the Python built-in
(whitespace, sign, 0x prefix) are never exercised by the program. -/
def parseHexNat (l : List Char) : Option Nat :=
  if l = [] then none
  else (hexDigits? l).map (fun ds => ds.foldl (fun a d => a * 16 + d) 0)

/-- Value of one uppercase hexadecimal digit, as accepted by
base64.b16decode (which, unlike int, rejects lowercase digits). -/
def b16CharVal (c : Char) : Option Nat :=
  if '0' ≤ c ∧ c ≤ '9' then some (c.toNat - 48)
  else if 'A' ≤ c ∧ c ≤ 'F' then some (c.toNat - 55)
  else none

/-- Models base64.b16decode: pairs of uppercase hexadecimal digits to
bytes; none models the binascii.Error (a ValueError) raised on odd length
or on a non-digit. -/
def b16decodeBytes : List Char → Option (List Nat)
  | [] => some []
  | [_] => none
  | c1 :: c2 :: t =>
    match b16CharVal c1, b16CharVal c2, b16decodeBytes t with
    | some h, some l, some rest => some ((h * 16 + l) :: rest)
    | _, _, _ => none

/-- Continuation byte test for strict UTF-8 decoding. -/
def utf8IsCont (b : Nat) : Bool := 128 ≤ b && b ≤ 191

/-- Allowed range of the first continuation byte of a three byte UTF-8
sequence (excludes overlong forms and surrogates, as the strict Python
codec does). -/
def utf8Cont2Ok (b b2 : Nat) : Bool :=
  if b = 0xE0 then 0xA0 ≤ b2 && b2 ≤ 0xBF
  else if b = 0xED then 0x80 ≤ b2 && b2 ≤ 0x9F
  else utf8IsCont b2

/-- Allowed range of the first continuation byte of a four byte UTF-8
sequence. -/
def utf8Cont3Ok (b b2 : Nat) : Bool :=
  if b = 0xF0 then 0x90 ≤ b2 && b2 ≤ 0xBF
  else if b = 0xF4 then 0x80 ≤ b2 && b2 ≤ 0x8F
  else utf8IsCont b2

/-- Models bytes.decode with the strict utf-8 codec: none models the
UnicodeDecodeError (a subclass of ValueError) raised on malformed input. -/
def utf8Decode : List Nat → Option (List Char)
  | [] => some []
  | b :: t =>
    if b ≤ 0x7F then (utf8Decode t).map (fun cs => Char.ofNat b :: cs)
    else if 0xC2 ≤ b ∧ b ≤ 0xDF then
      match t with
      | b2 :: t2 =>
        if utf8IsCont b2 then
          (utf8Decode t2).map (fun cs => Char.ofNat ((b - 0xC0) * 64 + (b2 - 0x80)) :: cs)
        else none
      | _ => none
    else if 0xE0 ≤ b ∧ b ≤ 0xEF then
      match t with
      | b2 :: b3 :: t3 =>
        if utf8Cont2Ok b b2 && utf8IsCont b3 then
          (utf8Decode t3).map
            (fun cs => Char.ofNat (((b - 0xE0) * 64 + (b2 - 0x80)) * 64 + (b3 - 0x80)) :: cs)
        else none
      | _ => none
    else if 0xF0 ≤ b ∧ b ≤ 0xF4 then
      match t with
      | b2 :: b3 :: b4 :: t4 =>
        if utf8Cont3Ok b b2 && utf8IsCont b3 && utf8IsCont b4 then
          (utf8Decode t4).map
            (fun cs =>
              Char.ofNat ((((b - 0xF0) * 64 + (b2 - 0x80)) * 64 + (b3 - 0x80)) * 64
                + (b4 - 0x80)) :: cs)
        else none
      | _ => none
    else none

/-- Decoded timestamp, mirroring the fields the decoder extracts. -/
structure Timestamp where
  year : Nat
  month : Nat
  day : Nat
  hour : Nat
  minute : Nat
  second : Nat
deriving DecidableEq, Repr

/-- Leap year test of the Gregorian calendar, as used by datetime. -/
def isLeap (y : Nat) : Bool :=
  y % 4 == 0 && (y % 100 != 0 || y % 400 == 0)

/-- Number of days of a month, as enforced by the datetime constructor. -/
def daysInMonth (y m : Nat) : Nat :=
  if m = 2 then (if isLeap y then 29 else 28)
  else if m = 4 ∨ m = 6 ∨ m = 9 ∨ m = 11 then 30
  else 31

/-- Models the percent-02d format: decimal digits, zero padded to width
two. -/
def fmt02 (n : Nat) : List Char :=
  if n < 10 then ['0', Nat.digitChar n] else Nat.toDigits 10 n

/-- Candidate matches of the directive S of the standard library time
parser, in the order of its alternation 6[0-1], [0-5] digit, digit: each
candidate is the parsed value with the unconsumed remainder. -/
def matchS (l : List Char) : List (Nat × List Char) :=
  (match l with
    | c1 :: c2 :: t =>
      if c1 = '6' ∧ '0' ≤ c2 ∧ c2 ≤ '1' then [(60 + (c2.toNat - 48), t)] else []
    | _ => []) ++
  (match l with
    | c1 :: c2 :: t =>
      if '0' ≤ c1 ∧ c1 ≤ '5' ∧ '0' ≤ c2 ∧ c2 ≤ '9' then
        [((c1.toNat - 48) * 10 + (c2.toNat - 48), t)]
      else []
    | _ => []) ++
  (match l with
    | c1 :: t => if '0' ≤ c1 ∧ c1 ≤ '9' then [(c1.toNat - 48, t)] else []
    | _ => [])

/-- Candidate matches of the directive M: alternation [0-5] digit,
digit. -/
def matchM (l : List Char) : List (Nat × List Char) :=
  (match l with
    | c1 :: c2 :: t =>
      if '0' ≤ c1 ∧ c1 ≤ '5' ∧ '0' ≤ c2 ∧ c2 ≤ '9' then
        [((c1.toNat - 48) * 10 + (c2.toNat - 48), t)]
      else []
    | _ => []) ++
  (match l with
    | c1 :: t => if '0' ≤ c1 ∧ c1 ≤ '9' then [(c1.toNat - 48, t)] else []
    | _ => [])

/-- Candidate matches of the directive H: alternation 2[0-3],
[0-1] digit, digit. -/
def matchH (l : List Char) : List (Nat × List Char) :=
  (match l with
    | c1 :: c2 :: t =>
      if c1 = '2' ∧ '0' ≤ c2 ∧ c2 ≤ '3' then [(20 + (c2.toNat - 48), t)] else []
    | _ => []) ++
  (match l with
    | c1 :: c2 :: t =>
      if '0' ≤ c1 ∧ c1 ≤ '1' ∧ '0' ≤ c2 ∧ c2 ≤ '9' then
        [((c1.toNat - 48) * 10 + (c2.toNat - 48), t)]
      else []
    | _ => []) ++
  (match l with
    | c1 :: t => if '0' ≤ c1 ∧ c1 ≤ '9' then [(c1.toNat - 48, t)] else []
    | _ => [])

/-- Candidate matches of the directive d: alternation 3[01], [12] digit,
0[1-9], [1-9]. -/
def matchD (l : List Char) : List (Nat × List Char) :=
  (match l with
    | c1 :: c2 :: t =>
      if c1 = '3' ∧ '0' ≤ c2 ∧ c2 ≤ '1' then [(30 + (c2.toNat - 48), t)] else []
    | _ => []) ++
  (match l with
    | c1 :: c2 :: t =>
      if '1' ≤ c1 ∧ c1 ≤ '2' ∧ '0' ≤ c2 ∧ c2 ≤ '9' then
        [((c1.toNat - 48) * 10 + (c2.toNat - 48), t)]
      else []
    | _ => []) ++
  (match l with
    | c1 :: c2 :: t =>
      if c1 = '0' ∧ '1' ≤ c2 ∧ c2 ≤ '9' then [(c2.toNat - 48, t)] else []
    | _ => []) ++
  (match l with
    | c1 :: t => if '1' ≤ c1 ∧ c1 ≤ '9' then [(c1.toNat - 48, t)] else []
    | _ => [])

/-- Candidate matches of the directive m: alternation 1[0-2], 0[1-9],
[1-9]. -/
def matchMo (l : List Char) : List (Nat × List Char) :=
  (match l with
    | c1 :: c2 :: t =>
      if c1 = '1' ∧ '0' ≤ c2 ∧ c2 ≤ '2' then [(10 + (c2.toNat - 48), t)] else []
    | _ => []) ++
  (match l with
    | c1 :: c2 :: t =>
      if c1 = '0' ∧ '1' ≤ c2 ∧ c2 ≤ '9' then [(c2.toNat - 48, t)] else []
    | _ => []) ++
  (match l with
    | c1 :: t => if '1' ≤ c1 ∧ c1 ≤ '9' then [(c1.toNat - 48, t)] else []
    | _ => [])

/-- Match of the directive Y: exactly four digits. -/
def matchY (l : List Char) : Option (Nat × List Char) :=
  match l with
  | a :: b :: c :: d :: t =>
    if ('0' ≤ a ∧ a ≤ '9') ∧ ('0' ≤ b ∧ b ≤ '9') ∧ ('0' ≤ c ∧ c ≤ '9') ∧
        ('0' ≤ d ∧ d ≤ '9') then
      some ((((a.toNat - 48) * 10 + (b.toNat - 48)) * 10 + (c.toNat - 48)) * 10
        + (d.toNat - 48), t)
    else none
  | _ => none

/-- Backtracking match of the pattern S M H underscore d m Y at the head
of the string, with the alternatives of every directive tried in pattern
order and earlier directives backtracked last, exactly as the regular
expression engine of the standard library does: the first complete match
in that preference order wins, whether or not it consumes the whole
string.  Returns the six parsed values and the unconsumed remainder. -/
def matchSMHdmY (l : List Char) :
    Option ((Nat × Nat × Nat × Nat × Nat × Nat) × List Char) :=
  (matchS l).findSome? fun sp =>
    (matchM sp.2).findSome? fun mp =>
      (matchH mp.2).findSome? fun hp =>
        match hp.2 with
        | '_' :: l4 =>
          (matchD l4).findSome? fun dp =>
            (matchMo dp.2).findSome? fun op =>
              (matchY op.2).map fun yp =>
                ((sp.1, mp.1, hp.1, dp.1, op.1, yp.1), yp.2)
        | _ => none

/-- Models the call
datetime.strptime(date, the format string of second minute hour _ day month year)
where date is built by the decoder with the percent-02d format from the
six parsed numbers.  The standard library compiles the format to the
regular expression
(6[0-1]|[0-5]d|d)([0-5]d|d)(2[0-3]|[0-1]d|d)_(3[01]|[12]d|0[1-9]|[1-9])(1[0-2]|0[1-9]|[1-9])(dddd)
(d standing for a digit class) and takes the first match at the start of
the string; backtracking may therefore re-segment the digit string, for
example a two-digit year borrows digits from the day and month fields.  A
match that leaves unconsumed characters raises the unconverted-data
ValueError; a full match is then range-checked by the date and datetime
constructors: year 1 to 9999, month 1 to 12, day within the month, hour
below 24, minute below 60 and second below 60 (the leap seconds the
directive S admits are rejected there).  none models the ValueError the
decoder catches. -/
def strptimeSMHdmY (second minute hour day month year : Nat) : Option Timestamp :=
  match matchSMHdmY (fmt02 second ++ fmt02 minute ++ fmt02 hour ++
      '_' :: (fmt02 day ++ fmt02 month ++ fmt02 year)) with
  | none => none
  | some ((ss, mm, hh, dd, mo, yy), rest) =>
    if rest = [] ∧ 1 ≤ yy ∧ yy ≤ 9999 ∧ 1 ≤ mo ∧ mo ≤ 12 ∧ 1 ≤ dd ∧
        dd ≤ daysInMonth yy mo ∧ hh ≤ 23 ∧ mm ≤ 59 ∧ ss ≤ 59 then
      some ⟨yy, mo, dd, hh, mm, ss⟩
    else none

/-- Typed value stored in a Reading. -/
inductive Value where
  | int (n : Nat)
  | text (s : String)
  | time (t : Timestamp)
deriving DecidableEq, Repr

/-- Reading as built by decode_kaifa: the Python dict in insertion order. -/
abbrev Reading := List (String × Value)

/-- Outcome of one decoder call.  valueError models a ValueError escaping
the decoder (possible only from the length field parse, which sits outside
the try block of the source). -/
inductive DecodeOut where
  | reading (r : Reading)
  | noResult
  | valueError
deriving DecidableEq, Repr

/-- Record-type dependent tail of decode_kaifa (source lines 244 to 268):
pkt is the record-type tag, txt1 the token stream after the tag.  Every
parse failure returns noResult, the model of the ValueError caught by the
enclosing try. -/
def kaifaBody (ts : Timestamp) (pkt : List Char) (txt1 : List Char) : DecodeOut :=
  if pkt = ['0', '1'] then
    match parseHexNat (pySlice txt1 2 10) with
    | none => .noResult
    | some eff =>
      .reading [("time_stamp", Value.time ts), ("Effect", Value.int eff)]
  else if pkt = ['0', '9'] ∨ pkt = ['0', 'E'] then
    match b16decodeBytes (pySlice txt1 4 18) with
    | none => .noResult
    | some vb =>
      match utf8Decode vb with
      | none => .noResult
      | some vcs =>
        match b16decodeBytes (pySlice (txt1.drop 18) 4 36) with
        | none => .noResult
        | some mb =>
          match utf8Decode mb with
          | none => .noResult
          | some mcs =>
            match b16decodeBytes (pySlice ((txt1.drop 18).drop 36) 4 20) with
            | none => .noResult
            | some tb =>
              match utf8Decode tb with
              | none => .noResult
              | some tcs =>
                match parseHexNat (pySlice (((txt1.drop 18).drop 36).drop 20) 2 10) with
                | none => .noResult
                | some eff =>
                  let base : Reading :=
                    [("time_stamp", Value.time ts),
                     ("Version identifier", Value.text (String.mk vcs)),
                     ("Meter-ID", Value.text (String.mk mcs)),
                     ("Meter type", Value.text (String.mk tcs)),
                     ("Effect", Value.int eff)]
                  if pkt = ['0', 'E'] then
                    let txt5 := (((((txt1.drop 18).drop 36).drop 20).drop 10).drop 78)
                    match parseHexNat (pySlice txt5 2 10) with
                    | none => .noResult
                    | some e1 =>
                      match parseHexNat (pySlice (txt5.drop 10) 2 10) with
                      | none => .noResult
                      | some e2 =>
                        match parseHexNat (pySlice ((txt5.drop 10).drop 10) 2 10) with
                        | none => .noResult
                        | some e3 =>
                          match parseHexNat (pySlice (((txt5.drop 10).drop 10).drop 10) 2 10) with
                          | none => .noResult
                          | some e4 =>
                            .reading (base ++
                              [("Cumulative_hourly_active_import_energy", Value.int e1),
                               ("Cumulative_hourly_active_export_energy", Value.int e2),
                               ("Cumulative_hourly_reactive_import_energy", Value.int e3),
                               ("Cumulative_hourly_reactive_export_energy", Value.int e4)])
                  else .reading base
  else .noResult

/-- Try block of decode_kaifa (source lines 227 to 271) over the token
stream already stripped of the 32 header digits: checks the data-type tag,
parses the six timestamp numbers, runs strptime, then dispatches on the
record-type tag.  noResult models both an explicit return None and a
caught ValueError. -/
def kaifaTryBlock (buf : List Char) : DecodeOut :=
  if pySlice (buf.drop 28) 0 2 ≠ ['0', '2'] then .noResult
  else
    match parseHexNat (pySlice buf 4 8), parseHexNat (pySlice buf 8 10),
        parseHexNat (pySlice buf 10 12), parseHexNat (pySlice buf 14 16),
        parseHexNat (pySlice buf 16 18), parseHexNat (pySlice buf 18 20) with
    | some year, some month, some day, some hour, some minute, some second =>
      match strptimeSMHdmY second minute hour day month year with
      | none => .noResult
      | some ts =>
        kaifaBody ts (pySlice (buf.drop 28) 2 4) ((buf.drop 28).drop 4)
    | _, _, _, _, _, _ => .noResult

/-- Models decode_kaifa (source lines 219 to 272) on the uppercase
hexadecimal token stream of a frame: control-field check at digits 10-12,
declared-length check from digits 2-4 (whose int call sits outside the try
block, so its ValueError escapes), then the try block on the stream with
32 digits dropped. -/
def decode_kaifa (buf : List Char) : DecodeOut :=
  if pySlice buf 10 12 ≠ ['1', '0'] then .noResult
  else
    match parseHexNat (pySlice buf 2 4) with
    | none => .valueError
    | some n =>
      if n * 2 ≠ buf.length then .noResult
      else kaifaTryBlock (buf.drop 32)

/-- Successful result of decode_kaifa as an Option, the value a decoder
hands to the dispatch loop when no exception escapes. -/
def kaifaOpt (buf : List Char) : Option Reading :=
  match decode_kaifa buf with
  | .reading r => some r
  | _ => none

/-- One shift step of the bit-reflected CRC-16 with polynomial 0x11021
(reflected form 0x8408). -/
def crcStep (c : Nat) : Nat :=
  if c % 2 = 1 then (c / 2) ^^^ 0x8408 else c / 2

/-- CRC update for one input byte: fold the byte into the register, then
shift eight times. -/
def crcByte (c b : Nat) : Nat :=
  crcStep^[8] (c ^^^ b % 256)

/-- Models crcmod.mkCrcFun(0x11021, rev=True, initCrc=0xffff, xorOut=0x0000)
as the equivalent bit-reflected shift register: initial value 0xFFFF,
no final exclusive-or. -/
def crc16 (l : List Nat) : Nat :=
  l.foldl crcByte 0xffff

/-- Uppercase hexadecimal digit of a value below 16. -/
def hexUpper (n : Nat) : Char :=
  List.getD ['0', '1', '2', '3', '4', '5', '6', '7', '8', '9', 'A', 'B', 'C', 'D', 'E', 'F'] n '0'

/-- Models the two-digit uppercase hexadecimal rendering of one byte used
to build the token stream (percent-02x format, upper-cased).  Intended for
byte values below 256, on which it agrees with the source. -/
def hexPair (b : Nat) : List Char :=
  [hexUpper (b / 16 % 16), hexUpper (b % 16)]

/-- Models struct.unpack of a little-endian unsigned 16 bit integer; the
program always applies it to exactly two bytes. -/
def unpackLE16 : List Nat → Nat
  | [a, b] => a + 256 * b
  | _ => 0

/-- Decoder strategy: from token stream to decode outcome. -/
abbrev Decoder := List Char → DecodeOut

/-- Message types of the websocket transport that the program
distinguishes; text stands for every type other than BINARY, closed and
error. -/
inductive WSMsgType where
  | binary
  | closed
  | error
  | text
deriving DecidableEq, Repr

/-- Received websocket message: a type and an optional byte payload. -/
structure WSMsg where
  type : WSMsgType
  data : Option (List Nat)
deriving DecidableEq, Repr

/-- Observable outcome of processing one message (source _process_msg,
lines 170 to 200).
noDispatch: returned without invoking any callback and without error.
dispatched: every callback in calls was awaited once, in order, with the
given reading; crcMismatch records whether the checksum discrepancy was
logged.
nameError: the dispatch loop read the never-assigned decoded-reading
variable, raising NameError to the caller.
decoderError: a ValueError escaped a decoder call. -/
inductive ProcResult (κ : Type) where
  | noDispatch
  | dispatched (crcMismatch : Bool) (reading : Option Reading) (calls : List κ)
  | nameError
  | decoderError

/-- Fallback scan of the decoder list (source lines 192 to 196): first
success wins and becomes the new default; error propagates a ValueError;
all failing leaves no reading and no new default. -/
def tryDecoders : List Decoder → List Char → Except Unit (Option Reading × Option Decoder)
  | [], _ => .ok (none, none)
  | d :: ds, buf =>
    match d buf with
    | .valueError => .error ()
    | .reading r => .ok (some r, some d)
    | .noResult => tryDecoders ds buf

/-- Decoder registry step (source lines 190 to 196): try the default
decoder, then scan the list; returns the optional reading and the new
default decoder. -/
def registryDecode (dflt : Decoder) (ds : List Decoder) (buf : List Char) :
    Except Unit (Option Reading × Decoder) :=
  match dflt buf with
  | .valueError => .error ()
  | .reading r => .ok (some r, dflt)
  | .noResult =>
    match tryDecoders ds buf with
    | .error _ => .error ()
    | .ok (r?, newD) => .ok (r?, newD.getD dflt)

/-- Models _process_msg (source lines 170 to 200) as a function of the
subscriber list, the current default decoder, the decoder list and the
message.  Returns the observable outcome and the default decoder
afterwards. -/
def processMsg {κ : Type} (subs : List κ) (dflt : Decoder) (ds : List Decoder)
    (m : WSMsg) : ProcResult κ × Decoder :=
  match m.data with
  | none => (.noDispatch, dflt)
  | some data =>
    match m.type with
    | .binary =>
      if data.length < 9 ∨ data.head? ≠ some 126 ∨ data.getLast? ≠ some 126 then
        (.noDispatch, dflt)
      else
        let payload := (data.drop 1).dropLast
        let crcv := crc16 (payload.take (payload.length - 2)) ^^^ 0xffff
        let trailer := unpackLE16 (payload.drop (payload.length - 2))
        let buf := payload.flatMap hexPair
        match registryDecode dflt ds buf with
        | .error _ => (.decoderError, dflt)
        | .ok (r?, newD) => (.dispatched (crcv != trailer) r? subs, newD)
    | _ =>
      if subs.isEmpty then (.noDispatch, dflt) else (.nameError, dflt)

/-- Connection state; unset models the initial None. -/
inductive PyState where
  | unset
  | starting
  | running
  | stopped
deriving DecidableEq, Repr

/-- State of a SubscriptionManager instance: the mutable attributes set in
the constructor.  spawnCount counts create_task calls so that task
creation is observable; clientTask holds the identifier of the pending
task; retryTimer holds the delay of a scheduled retry timer. -/
structure SubscriptionManager (κ : Type) where
  state : PyState
  isRunning : Bool
  showConnErr : Bool
  websocket : Bool
  retryTimer : Option Nat
  waitTime : Nat
  clientTask : Option Nat
  spawnCount : Nat
  subscriptions : List κ
  defaultDecoder : Decoder
  decoders : List Decoder

/-- Models start (source lines 47 to 54): return unchanged when already
running, else mark starting, cancel the pending task and spawn the
connection task. -/
def start {κ : Type} (s : SubscriptionManager κ) : SubscriptionManager κ :=
  if s.state = .running then s
  else
    let s1 := {s with state := .starting}
    let s2 := {s1 with clientTask := none}
    {s2 with clientTask := some s2.spawnCount, spawnCount := s2.spawnCount + 1}

/-- Models retry (source lines 133 to 148): skip while starting or
running; otherwise cancel the pending timer, set state to starting and
schedule start after waitTime seconds. -/
def retry {κ : Type} (s : SubscriptionManager κ) : SubscriptionManager κ :=
  if s.state = .starting ∨ s.state = .running then s
  else
    let s1 := {s with retryTimer := none}
    let s2 := {s1 with state := .starting}
    {s2 with retryTimer := some s2.waitTime}

/-- Models subscribe (source lines 150 to 154): append unless already
present. -/
def subscribe {κ : Type} [DecidableEq κ] (s : SubscriptionManager κ) (cb : κ) :
    SubscriptionManager κ :=
  if cb ∈ s.subscriptions then s
  else {s with subscriptions := s.subscriptions ++ [cb]}

/-- Models unsubscribe (source lines 156 to 160): remove the first
occurrence, no-op when absent. -/
def unsubscribe {κ : Type} [DecidableEq κ] (s : SubscriptionManager κ) (cb : κ) :
    SubscriptionManager κ :=
  if cb ∉ s.subscriptions then s
  else {s with subscriptions := s.subscriptions.erase cb}

/-- One occurrence on the receive loop: either a 30 second receive timeout
(pingOk telling whether the subsequent ping probe is answered within 10
seconds) or a received message. -/
inductive RecvEvent where
  | timeout (pingOk : Bool)
  | msg (m : WSMsg)
deriving Repr

/-- Exception escaping to the catch-all handler of the connection loop. -/
inductive PyExc where
  | nameError
  | valueError
  | connectError
deriving DecidableEq, Repr

/-- How the receive loop ended. -/
inductive LoopExit where
  | idle
  | pingFail
  | closedSig
  | exc (e : PyExc)
  | guardExit
  | pending
deriving DecidableEq, Repr

/-- Models the receive loop of running (source lines 71 to 104): k is the
consecutive idle counter; the event list is the script of the transport.
Returns the manager state at loop exit, the exit kind and the events not
consumed.  pending means the script ran out while the loop would keep
waiting. -/
def recvLoop {κ : Type} (k : Nat) (s : SubscriptionManager κ) :
    List RecvEvent → SubscriptionManager κ × LoopExit × List RecvEvent
  | [] => if s.state = .running then (s, .pending, []) else (s, .guardExit, [])
  | ev :: rest =>
    if s.state = .running then
      match ev with
      | .timeout pingOk =>
        if k + 1 > 10 then
          ({s with showConnErr := false, isRunning := false}, .idle, rest)
        else if pingOk then
          recvLoop (k + 1) s rest
        else
          ({s with showConnErr := false, isRunning := false}, .pingFail, rest)
      | .msg m =>
        if m.type = .closed ∨ m.type = .error then (s, .closedSig, rest)
        else
          let s1 := {s with isRunning := true}
          match processMsg s1.subscriptions s1.defaultDecoder s1.decoders m with
          | (.nameError, _) => (s1, .exc .nameError, rest)
          | (.decoderError, _) => (s1, .exc .valueError, rest)
          | (_, newD) =>
            recvLoop 0 {s1 with defaultDecoder := newD, showConnErr := true} rest
    else (s, .guardExit, ev :: rest)

/-- Models the body of running up to loop exit (source lines 61 to 106):
close any previous websocket, connect (connectOk tells whether ws_connect
succeeds), mark running and enter the receive loop. -/
def runningBody {κ : Type} (connectOk : Bool) (s : SubscriptionManager κ)
    (evs : List RecvEvent) : SubscriptionManager κ × LoopExit × List RecvEvent :=
  let s0 := {s with websocket := false}
  if connectOk then
    recvLoop 0 {s0 with websocket := true, state := .running} evs
  else (s0, .exc .connectError, evs)

/-- Models the finally block of running (source lines 107 to 113): close
the websocket, and unless already stopped, mark stopped and call retry. -/
def runningFinally {κ : Type} (s : SubscriptionManager κ) : SubscriptionManager κ :=
  let s1 := {s with websocket := false}
  if s1.state ≠ .stopped then retry {s1 with state := .stopped} else s1

/-- Models one execution of the running task (source lines 61 to 113):
loop body followed by the finally block.  When the event script runs out
with the loop still waiting (pending), the task is still suspended and the
finally block has not run, so the state is returned as is. -/
def runningFull {κ : Type} (connectOk : Bool) (s : SubscriptionManager κ)
    (evs : List RecvEvent) : SubscriptionManager κ × LoopExit × List RecvEvent :=
  let r := runningBody connectOk s evs
  if r.2.1 = .pending then r else (runningFinally r.1, r.2.1, r.2.2)

/-- Sample payload of a record-type 01 frame (the bytes between the frame
delimiters, checksum trailer included): declared length 0x25 = 37 bytes,
control field 10, data-type tag 02, timestamp 2017-12-24 10:30:00, power
value 1234. -/
def payload01 : List Nat :=
  [0xA0, 0x25, 0, 0, 0, 0x10, 0, 0, 0, 0, 0, 0, 0, 0, 0, 0,
   0, 0, 0x07, 0xE1, 0x0C, 0x18, 0, 0x0A, 0x1E, 0,
   0, 0, 0, 0, 0x02, 0x01, 0, 0, 0, 0x04, 0xD2]

/-- Sample frame of record-type 01: payload01 wrapped in delimiters. -/
def frame01 : List Nat := 126 :: payload01 ++ [126]

/-- Token stream of payload01. -/
def buf01 : List Char := payload01.flatMap hexPair

/-- Sample payload identical to payload01 but with the unknown record-type
tag FF. -/
def payloadFF : List Nat :=
  [0xA0, 0x25, 0, 0, 0, 0x10, 0, 0, 0, 0, 0, 0, 0, 0, 0, 0,
   0, 0, 0x07, 0xE1, 0x0C, 0x18, 0, 0x0A, 0x1E, 0,
   0, 0, 0, 0, 0x02, 0xFF, 0, 0, 0, 0x04, 0xD2]

/-- Sample frame with the unknown record-type tag FF. -/
def frameFF : List Nat := 126 :: payloadFF ++ [126]

/-- Token stream of payloadFF. -/
def bufFF : List Char := payloadFF.flatMap hexPair

/-- Sample payload identical to payload01 but with year bytes 0x00 0x11
(year 17): the timestamp digit string 003010_241217 only parses through
regular-expression backtracking, which re-segments it as day 2, month 4,
year 1217. -/
def payloadY17 : List Nat :=
  [0xA0, 0x25, 0, 0, 0, 0x10, 0, 0, 0, 0, 0, 0, 0, 0, 0, 0,
   0, 0, 0x00, 0x11, 0x0C, 0x18, 0, 0x0A, 0x1E, 0,
   0, 0, 0, 0, 0x02, 0x01, 0, 0, 0, 0x04, 0xD2]

/-- Token stream of payloadY17. -/
def bufY17 : List Char := payloadY17.flatMap hexPair

/-- Token stream of payload01 with the control field byte replaced by
0x11, failing the control-field check. -/
def bufBadCtrl : List Char :=
  ([0xA0, 0x25, 0, 0, 0, 0x11, 0, 0, 0, 0, 0, 0, 0, 0, 0, 0,
    0, 0, 0x07, 0xE1, 0x0C, 0x18, 0, 0x0A, 0x1E, 0,
    0, 0, 0, 0, 0x02, 0x01, 0, 0, 0, 0x04, 0xD2] : List Nat).flatMap hexPair

/-- Token stream of payload01 with the declared length byte replaced by
0x26 (38 bytes), failing the length check of the 37 byte stream. -/
def bufBadLen : List Char :=
  ([0xA0, 0x26, 0, 0, 0, 0x10, 0, 0, 0, 0, 0, 0, 0, 0, 0, 0,
    0, 0, 0x07, 0xE1, 0x0C, 0x18, 0, 0x0A, 0x1E, 0,
    0, 0, 0, 0, 0x02, 0x01, 0, 0, 0, 0x04, 0xD2] : List Nat).flatMap hexPair

/-- Token stream of payload01 with the data-type tag byte replaced by
0x03, failing the tag check. -/
def bufBadTag : List Char :=
  ([0xA0, 0x25, 0, 0, 0, 0x10, 0, 0, 0, 0, 0, 0, 0, 0, 0, 0,
    0, 0, 0x07, 0xE1, 0x0C, 0x18, 0, 0x0A, 0x1E, 0,
    0, 0, 0, 0, 0x03, 0x01, 0, 0, 0, 0x04, 0xD2] : List Nat).flatMap hexPair

/-- Sample manager: the attribute values assigned by the constructor
(state None, no websocket, no timers, retry delay 15, the Kaifa decoder
registered as only decoder and default), with a chosen subscriber list and
a chosen state for exercising the state machine. -/
def sampleManager (subs : List Nat) (st : PyState) : SubscriptionManager Nat :=
  { state := st
    isRunning := false
    showConnErr := true
    websocket := false
    retryTimer := none
    waitTime := 15
    clientTask := none
    spawnCount := 0
    subscriptions := subs
    defaultDecoder := decode_kaifa
    decoders := [decode_kaifa] }

/-! Theorems: the claims C1 to C10 and their helper lemmas. -/

set_option maxRecDepth 8000 in
/-- Sanity check tying crc16 to the X-25 variant it models: over the
bytes of the digits 1 to 9, the bit-inverted register equals the
published check value 0x906E. -/
theorem crc16_check_value :
    crc16 [0x31, 0x32, 0x33, 0x34, 0x35, 0x36, 0x37, 0x38, 0x39] ^^^ 0xffff = 0x906E := by
  decide

/-- Sanity check of the timestamp model against the verified behaviour of
the standard library parser: second 0, minute 30, hour 10, day 24,
month 12, year 17 formats to the digit string 003010_241217, which the
backtracking matcher re-segments and accepts as 1217-04-02 10:30:00. -/
theorem strptime_backtracking_example :
    strptimeSMHdmY 0 30 10 24 12 17 = some ⟨1217, 4, 2, 10, 30, 0⟩ := by decide

/-- Sanity check: an aligned in-range date parses to itself. -/
theorem strptime_aligned_example :
    strptimeSMHdmY 0 30 10 24 12 2017 = some ⟨2017, 12, 24, 10, 30, 0⟩ := by decide

/-- Sanity check of the first-match semantics: with month 13 the first
match the pattern finds leaves one digit unconsumed, so the parse fails
with the unconverted-data error even though no full match exists. -/
theorem strptime_unconverted_example :
    strptimeSMHdmY 0 0 0 24 13 2017 = none := by decide

/-- C3: every binary message shorter than 9 bytes, or not starting with
byte 126, or not ending with byte 126, is rejected by message processing:
no validated frame, no decoder runs, no subscriber callback is invoked, no
reading is emitted and no exception is raised to the caller. -/
theorem c3_invalid_framing_rejected {κ : Type} (subs : List κ) (dflt : Decoder)
    (ds : List Decoder) (data : List Nat)
    (h : data.length < 9 ∨ data.head? ≠ some 126 ∨ data.getLast? ≠ some 126) :
    processMsg subs dflt ds ⟨.binary, some data⟩ = (.noDispatch, dflt) := by
  simp only [processMsg]
  rw [if_pos h]

/-- Witness for C3 at the concrete three byte message. -/
theorem c3_invalid_framing_rejected_witness :
    processMsg [0] decode_kaifa [] ⟨.binary, some [1, 2, 3]⟩ = (.noDispatch, decode_kaifa) :=
  c3_invalid_framing_rejected [0] decode_kaifa [] [1, 2, 3] (by decide)

/-- C8: start while running is a no-op (same state, no task spawned or
cancelled), and retry while starting or running is a no-op (no timer
scheduled, no state change). -/
theorem c8_start_retry_noop {κ : Type} (s : SubscriptionManager κ) :
    (s.state = .running → start s = s ∧ retry s = s) ∧
    (s.state = .starting → retry s = s) := by
  refine ⟨fun h => ⟨?_, ?_⟩, fun h => ?_⟩
  · simp [start, h]
  · simp [retry, h]
  · simp [retry, h]

/-- Witness for C8 at concrete managers in state running and starting. -/
theorem c8_start_retry_noop_witness :
    (start (sampleManager [] .running) = sampleManager [] .running ∧
      retry (sampleManager [] .running) = sampleManager [] .running) ∧
    retry (sampleManager [] .starting) = sampleManager [] .starting :=
  ⟨(c8_start_retry_noop (sampleManager [] .running)).1 rfl,
   (c8_start_retry_noop (sampleManager [] .starting)).2 rfl⟩

/-- C6 counterexample: immediately after retry returns on a stopped
manager, while the scheduled 15 second timer is still pending, the state
is already starting, not stopped — so the transition to starting does not
wait for the timer to fire and the state does not remain stopped during
the delay. -/
theorem c6_counterexample :
    (retry (sampleManager [] .stopped)).retryTimer = some 15 ∧
    (retry (sampleManager [] .stopped)).state = .starting ∧
    (retry (sampleManager [] .stopped)).state ≠ .stopped :=
  ⟨rfl, rfl, by decide⟩

/-- C6 as amended: retry called in state stopped sets the state to
starting immediately, before the 15 second timer is scheduled; the state
is starting, not stopped, during the delay. -/
theorem c6_retry_sets_starting_immediately {κ : Type} (s : SubscriptionManager κ)
    (h : s.state = .stopped) :
    retry s = {s with state := .starting, retryTimer := some s.waitTime} := by
  simp [retry, h]

/-- Witness for the amended C6 at a concrete stopped manager. -/
theorem c6_retry_sets_starting_immediately_witness :
    retry (sampleManager [] .stopped) =
      {sampleManager [] .stopped with state := .starting, retryTimer := some 15} :=
  c6_retry_sets_starting_immediately (sampleManager [] .stopped) rfl

/-- C9: subscribe is idempotent by identity (two subscriptions of the same
callback leave exactly one entry, so one dispatch per message),
unsubscribe of an absent callback is a no-op, and subscription appends at
the end, preserving insertion order of distinct callbacks. -/
theorem c9_subscribe_idempotent {κ : Type} [DecidableEq κ]
    (s : SubscriptionManager κ) (cb cb2 : κ) :
    (s.subscriptions.count cb ≤ 1 →
      (subscribe (subscribe s cb) cb).subscriptions.count cb = 1) ∧
    (cb2 ∉ s.subscriptions → unsubscribe s cb2 = s) ∧
    (cb2 ∉ s.subscriptions →
      (subscribe s cb2).subscriptions = s.subscriptions ++ [cb2]) := by
  refine ⟨fun hc => ?_, fun h => ?_, fun h => ?_⟩
  · by_cases hm : cb ∈ s.subscriptions
    · have h1 : subscribe s cb = s := by simp only [subscribe, if_pos hm]
      rw [h1, h1]
      have h2 : 0 < s.subscriptions.count cb := List.count_pos_iff.mpr hm
      omega
    · set t := subscribe s cb with ht
      have h1 : t.subscriptions = s.subscriptions ++ [cb] := by
        rw [ht]; simp only [subscribe, if_neg hm]
      have hmem : cb ∈ t.subscriptions := by rw [h1]; simp
      have h2 : subscribe t cb = t := by simp only [subscribe, if_pos hmem]
      rw [h2, h1]
      simp [List.count_eq_zero_of_not_mem hm]
  · simp [unsubscribe, h]
  · simp [subscribe, h]

/-- Witness for C9: a manager with subscriber 0, double-subscribing 0 and
handling the absent callback 1. -/
theorem c9_subscribe_idempotent_witness :
    (subscribe (subscribe (sampleManager [0] .unset) 0) 0).subscriptions.count 0 = 1 ∧
    unsubscribe (sampleManager [0] .unset) 1 = sampleManager [0] .unset ∧
    (subscribe (sampleManager [0] .unset) 1).subscriptions = [0] ++ [1] :=
  ⟨(c9_subscribe_idempotent (sampleManager [0] .unset) 0 1).1 (by decide),
   (c9_subscribe_idempotent (sampleManager [0] .unset) 0 1).2.1 (by decide),
   (c9_subscribe_idempotent (sampleManager [0] .unset) 0 1).2.2 (by decide)⟩

/-- C5: in state running, ten receive timeouts answered by successful
pings followed by an eleventh receive timeout push the idle counter over
10 and make the connection loop exit without consuming further events:
isRunning is set false, the websocket is closed, the state is set to
stopped, and retry then schedules a reconnection 15 seconds later (retry
itself moves the state on to starting).  The idle counter is reset only by
a normal message, never by a timeout. -/
theorem c5_idle_exhaustion_stops_and_retries {κ : Type} (s : SubscriptionManager κ)
    (b : Bool) (rest : List RecvEvent) (hw : s.waitTime = 15) :
    let r := runningFull true s
      (List.replicate 10 (RecvEvent.timeout true) ++ RecvEvent.timeout b :: rest)
    let mid : SubscriptionManager κ :=
      { s with
        websocket := false, state := .stopped, showConnErr := false,
        isRunning := false }
    r.2.1 = LoopExit.idle ∧ r.2.2 = rest ∧ r.1.isRunning = false ∧
    r.1.websocket = false ∧ mid.state = .stopped ∧ r.1 = retry mid ∧
    r.1.retryTimer = some 15 ∧ r.1.state = .starting := by
  intro r mid
  refine ⟨rfl, rfl, rfl, rfl, rfl, rfl, ?_, rfl⟩
  have h : r.1.retryTimer = some s.waitTime := rfl
  rw [h, hw]

/-- Witness for C5 at a concrete manager and the empty remainder. -/
theorem c5_idle_exhaustion_stops_and_retries_witness :
    let r := runningFull true (sampleManager [] .unset)
      (List.replicate 10 (RecvEvent.timeout true) ++ RecvEvent.timeout false :: [])
    let mid : SubscriptionManager Nat :=
      { sampleManager [] .unset with
        websocket := false, state := .stopped,
        showConnErr := false, isRunning := false }
    r.2.1 = LoopExit.idle ∧ r.2.2 = [] ∧ r.1.isRunning = false ∧
    r.1.websocket = false ∧ mid.state = .stopped ∧ r.1 = retry mid ∧
    r.1.retryTimer = some 15 ∧ r.1.state = .starting :=
  c5_idle_exhaustion_stops_and_retries (sampleManager [] .unset) false [] rfl

/-- Processing of a message that is not binary yet carries data reaches
the dispatch loop with the decoded-reading variable never assigned: with
at least one subscriber the loop raises NameError. -/
theorem processMsg_nonbinary_nameError {κ : Type} (subs : List κ) (dflt : Decoder)
    (ds : List Decoder) (mt : WSMsgType) (d : List Nat)
    (hb : mt ≠ .binary) (hs : subs ≠ []) :
    processMsg subs dflt ds ⟨mt, some d⟩ = (.nameError, dflt) := by
  have hempty : subs.isEmpty = false := by
    cases subs with
    | nil => exact absurd rfl hs
    | cons a t => rfl
  cases mt with
  | binary => exact absurd rfl hb
  | closed => simp [processMsg, hempty]
  | error => simp [processMsg, hempty]
  | text => simp [processMsg, hempty]

/-- Receive-loop step for a message whose processing raises NameError:
the loop exits with that exception after marking isRunning. -/
theorem recvLoop_msg_nameError {κ : Type} (k : Nat) (s : SubscriptionManager κ)
    (m : WSMsg) (rest : List RecvEvent) (hrun : s.state = .running)
    (hnc : ¬(m.type = .closed ∨ m.type = .error))
    (hpm : processMsg s.subscriptions s.defaultDecoder s.decoders m =
      (.nameError, s.defaultDecoder)) :
    recvLoop k s (RecvEvent.msg m :: rest) =
      ({s with isRunning := true}, .exc .nameError, rest) := by
  simp only [recvLoop]
  rw [if_pos hrun, if_neg hnc]
  have hpm2 : processMsg ({s with isRunning := true} : SubscriptionManager κ).subscriptions
      ({s with isRunning := true} : SubscriptionManager κ).defaultDecoder
      ({s with isRunning := true} : SubscriptionManager κ).decoders m =
      (.nameError, s.defaultDecoder) := hpm
  rw [hpm2]

/-- C10: a received message whose type is not BINARY (nor a close or
error signal) but whose data is present makes processing raise NameError
when any subscriber is registered; the exception propagates to the
catch-all of the connection loop, which closes the transport, sets the
state to stopped and schedules a retry 15 seconds later — one such
message terminates the connection attempt. -/
theorem c10_nonbinary_data_kills_connection {κ : Type} (s : SubscriptionManager κ)
    (mt : WSMsgType) (d : List Nat) (rest : List RecvEvent)
    (hb : mt ≠ .binary) (hc : mt ≠ .closed) (he : mt ≠ .error)
    (hs : s.subscriptions ≠ []) (hw : s.waitTime = 15) :
    let r := runningFull true s (RecvEvent.msg ⟨mt, some d⟩ :: rest)
    let mid : SubscriptionManager κ :=
      {s with websocket := false, state := .stopped, isRunning := true}
    processMsg s.subscriptions s.defaultDecoder s.decoders ⟨mt, some d⟩ =
      (.nameError, s.defaultDecoder) ∧
    r.2.1 = .exc .nameError ∧ r.2.2 = rest ∧ mid.state = .stopped ∧
    r.1 = retry mid ∧ r.1.retryTimer = some 15 ∧ r.1.state = .starting := by
  intro r mid
  have hpm := processMsg_nonbinary_nameError s.subscriptions s.defaultDecoder
    s.decoders mt d hb hs
  have hnc : ¬((⟨mt, some d⟩ : WSMsg).type = .closed ∨
      (⟨mt, some d⟩ : WSMsg).type = .error) := by
    simp only [WSMsg.mk.injEq]
    exact fun hor => hor.elim hc he
  have hbody : runningBody true s (RecvEvent.msg ⟨mt, some d⟩ :: rest) =
      ({s with websocket := true, state := .running, isRunning := true},
        .exc .nameError, rest) := by
    show recvLoop 0 {s with websocket := true, state := PyState.running}
      (RecvEvent.msg ⟨mt, some d⟩ :: rest) = _
    exact recvLoop_msg_nameError 0 _ _ rest rfl hnc hpm
  have hr : r = (retry mid, LoopExit.exc .nameError, rest) := by
    show runningFull true s (RecvEvent.msg ⟨mt, some d⟩ :: rest) = _
    simp only [runningFull]
    rw [hbody]
    rfl
  refine ⟨hpm, ?_, ?_, rfl, ?_, ?_, ?_⟩
  · rw [hr]
  · rw [hr]
  · rw [hr]
  · rw [hr]
    have h15 : (retry mid).retryTimer = some s.waitTime := rfl
    rw [h15, hw]
  · rw [hr]
    rfl

/-- Witness for C10: a concrete text message with data against a manager
with one subscriber. -/
theorem c10_nonbinary_data_kills_connection_witness :
    let r := runningFull true (sampleManager [0] .unset)
      (RecvEvent.msg ⟨.text, some [1, 2, 3]⟩ :: [])
    let mid : SubscriptionManager Nat :=
      { sampleManager [0] .unset with
        websocket := false, state := .stopped,
        isRunning := true }
    processMsg (sampleManager [0] .unset).subscriptions
      (sampleManager [0] .unset).defaultDecoder
      (sampleManager [0] .unset).decoders ⟨.text, some [1, 2, 3]⟩ =
      (.nameError, (sampleManager [0] .unset).defaultDecoder) ∧
    r.2.1 = .exc .nameError ∧ r.2.2 = [] ∧ mid.state = .stopped ∧
    r.1 = retry mid ∧ r.1.retryTimer = some 15 ∧ r.1.state = .starting :=
  c10_nonbinary_data_kills_connection (sampleManager [0] .unset) .text [1, 2, 3] []
    (by decide) (by decide) (by decide) (by decide) rfl

/-- Hexadecimal digits produced by hexUpper parse back to their value. -/
theorem hexCharVal_hexUpper : ∀ n < 16, hexCharVal (hexUpper n) = some n := by decide

/-- The two-digit rendering of a byte always parses as a hexadecimal
number. -/
theorem parseHexNat_hexPair (b : Nat) : ∃ n, parseHexNat (hexPair b) = some n := by
  have h1 := hexCharVal_hexUpper (b / 16 % 16) (Nat.mod_lt _ (by norm_num))
  have h2 := hexCharVal_hexUpper (b % 16) (Nat.mod_lt _ (by norm_num))
  exact ⟨b / 16 % 16 * 16 + b % 16, by simp [parseHexNat, hexPair, hexDigits?, h1, h2]⟩

/-- The record-type dispatch never lets a ValueError escape. -/
theorem kaifaBody_ne_valueError (ts : Timestamp) (pkt txt1 : List Char) :
    kaifaBody ts pkt txt1 ≠ .valueError := by
  unfold kaifaBody
  dsimp only
  repeat' split
  all_goals simp

/-- The try block never lets a ValueError escape. -/
theorem kaifaTryBlock_ne_valueError (B : List Char) :
    kaifaTryBlock B ≠ .valueError := by
  unfold kaifaTryBlock
  repeat' split
  all_goals first
    | apply kaifaBody_ne_valueError
    | simp

/-- On the token stream of at least two bytes, as produced by the framing
layer, decode_kaifa never raises: its only possible ValueError comes from
the declared-length parse, whose two digits are then well formed. -/
theorem decode_kaifa_ne_valueError (payload : List Nat)
    (h : 2 ≤ payload.length) :
    decode_kaifa (payload.flatMap hexPair) ≠ .valueError := by
  cases payload with
  | nil => simp at h
  | cons b0 t =>
    cases t with
    | nil => simp at h
    | cons b1 rest =>
      have hs : pySlice ((b0 :: b1 :: rest).flatMap hexPair) 2 4 = hexPair b1 := by
        simp [List.flatMap_cons, hexPair, pySlice]
      obtain ⟨n, hn⟩ := parseHexNat_hexPair b1
      unfold decode_kaifa
      rw [hs, hn]
      split
      · simp
      · dsimp only
        split
        · simp
        · apply kaifaTryBlock_ne_valueError

/-- Registry step with the Kaifa decoder as only and default decoder: as
long as the decoder does not raise, the registry returns its result and
keeps it as default. -/
theorem registryDecode_single (buf : List Char)
    (h : decode_kaifa buf ≠ .valueError) :
    registryDecode decode_kaifa [decode_kaifa] buf =
      .ok (kaifaOpt buf, decode_kaifa) := by
  cases hd : decode_kaifa buf with
  | reading r => simp [registryDecode, kaifaOpt, hd]
  | noResult => simp [registryDecode, kaifaOpt, tryDecoders, hd]
  | valueError => exact absurd hd h

/-- C2: on every structurally valid binary frame, the checksum verdict is
exactly the comparison of the bit-reflected CRC-16 (polynomial 0x11021,
initial value 0xFFFF, no output exclusive-or) of the delimiter-stripped
payload without its last two bytes, inverted, against the little-endian
16 bit integer of those two bytes; and whatever that verdict, the frame is
not dropped: the dispatched reading is the decode of the payload exactly
as if the checksum had matched, the mismatch being only recorded. -/
theorem c2_checksum_advisory {κ : Type} (subs : List κ) (data : List Nat)
    (h9 : 9 ≤ data.length) (hh : data.head? = some 126)
    (hl : data.getLast? = some 126) :
    processMsg subs decode_kaifa [decode_kaifa] ⟨.binary, some data⟩ =
      (.dispatched
        ((crc16 (((data.drop 1).dropLast).take (((data.drop 1).dropLast).length - 2)) ^^^ 0xffff)
          != unpackLE16 (((data.drop 1).dropLast).drop (((data.drop 1).dropLast).length - 2)))
        (kaifaOpt (((data.drop 1).dropLast).flatMap hexPair)) subs,
       decode_kaifa) := by
  have hlen : 2 ≤ ((data.drop 1).dropLast).length := by
    rw [List.length_dropLast, List.length_drop]; omega
  have hne := decode_kaifa_ne_valueError _ hlen
  simp only [processMsg]
  rw [if_neg (by push_neg; exact ⟨by omega, hh, hl⟩)]
  rw [registryDecode_single _ hne]

/-- Witness for C2 at the concrete record-type 01 frame. -/
theorem c2_checksum_advisory_witness :
    processMsg [7] decode_kaifa [decode_kaifa] ⟨.binary, some frame01⟩ =
      (.dispatched
        ((crc16 (((frame01.drop 1).dropLast).take (((frame01.drop 1).dropLast).length - 2)) ^^^ 0xffff)
          != unpackLE16 (((frame01.drop 1).dropLast).drop (((frame01.drop 1).dropLast).length - 2)))
        (kaifaOpt (((frame01.drop 1).dropLast).flatMap hexPair)) [7],
       decode_kaifa) :=
  c2_checksum_advisory [7] frame01 (by decide) (by decide) (by decide)

/-- A decoder list all of whose members fail yields no reading and no new
default. -/
theorem tryDecoders_all_none (ds : List Decoder) (buf : List Char)
    (h : ∀ d ∈ ds, d buf = .noResult) :
    tryDecoders ds buf = .ok (none, none) := by
  induction ds with
  | nil => rfl
  | cons d t ih =>
    have hd := h d (by simp)
    simp only [tryDecoders, hd]
    exact ih (fun d2 hd2 => h d2 (by simp [hd2]))

/-- C7: on a structurally valid binary frame on which the default decoder
and every registered decoder return no result, processing still dispatches
to every registered subscriber exactly once, in order, passing an absent
reading; no exception escapes and the default decoder is unchanged. -/
theorem c7_unknown_frame_dispatches_none {κ : Type} (subs : List κ)
    (dflt : Decoder) (ds : List Decoder) (data : List Nat)
    (h9 : 9 ≤ data.length) (hh : data.head? = some 126)
    (hl : data.getLast? = some 126)
    (hdflt : dflt (((data.drop 1).dropLast).flatMap hexPair) = .noResult)
    (hds : ∀ d ∈ ds, d (((data.drop 1).dropLast).flatMap hexPair) = .noResult) :
    ∃ flag, processMsg subs dflt ds ⟨.binary, some data⟩ =
      (.dispatched flag none subs, dflt) := by
  refine ⟨(crc16 (((data.drop 1).dropLast).take (((data.drop 1).dropLast).length - 2)) ^^^ 0xffff)
    != unpackLE16 (((data.drop 1).dropLast).drop (((data.drop 1).dropLast).length - 2)), ?_⟩
  simp only [processMsg]
  rw [if_neg (by push_neg; exact ⟨by omega, hh, hl⟩)]
  rw [show registryDecode dflt ds (((data.drop 1).dropLast).flatMap hexPair) =
    .ok (none, dflt) by
    simp only [registryDecode, hdflt, tryDecoders_all_none ds _ hds, Option.getD_none]]

/-- Witness for C7 at the concrete frame with unknown record-type FF and
two subscribers. -/
theorem c7_unknown_frame_dispatches_none_witness :
    ∃ flag, processMsg [0, 1] decode_kaifa [decode_kaifa] ⟨.binary, some frameFF⟩ =
      (.dispatched flag none [0, 1], decode_kaifa) :=
  c7_unknown_frame_dispatches_none [0, 1] decode_kaifa [decode_kaifa] frameFF
    (by decide) (by decide) (by decide) (by decide)
    (by
      intro d hd
      rw [List.mem_singleton] at hd
      subst hd
      decide)

/-- Inversion of a successful decode through the outer checks: the control
field read "10", the declared length matched, and the try block produced
the reading. -/
theorem decode_kaifa_reading_inv (buf : List Char) (r : Reading)
    (h : decode_kaifa buf = .reading r) :
    pySlice buf 10 12 = ['1', '0'] ∧
    (∃ n, parseHexNat (pySlice buf 2 4) = some n ∧ n * 2 = buf.length) ∧
    kaifaTryBlock (buf.drop 32) = .reading r := by
  unfold decode_kaifa at h
  split at h
  · exact absurd h (by simp)
  next h10 =>
    split at h
    · exact absurd h (by simp)
    next n hn =>
      split at h
      · exact absurd h (by simp)
      next hlen =>
        exact ⟨not_not.mp h10, ⟨n, hn, not_not.mp hlen⟩, h⟩

/-- Inversion of a successful try block through the data-type tag check. -/
theorem kaifaTryBlock_reading_tag (B : List Char) (r : Reading)
    (h : kaifaTryBlock B = .reading r) :
    pySlice (B.drop 28) 0 2 = ['0', '2'] := by
  unfold kaifaTryBlock at h
  split at h
  · exact absurd h (by simp)
  next htag =>
    exact not_not.mp htag

/-- C4: the Kaifa decoder returns a Reading only if the control-field
token at digits 10 to 12 equals "10", the declared length byte at byte
offset 1 doubled equals the token-stream length, and, after the fixed
32 digit (16 byte) header skip, the one byte data-type tag that is checked
(28 digits further on) equals "02"; and whenever one of these checks fails
the decoder returns no result (for the second and third checks provided
the length field parses, which holds on every stream the framing layer
produces: when it does not even parse, the source raises instead of
returning). -/
theorem c4_kaifa_validations (buf : List Char) :
    (∀ r, decode_kaifa buf = .reading r →
      pySlice buf 10 12 = ['1', '0'] ∧
      (∃ n, parseHexNat (pySlice buf 2 4) = some n ∧ n * 2 = buf.length) ∧
      pySlice ((buf.drop 32).drop 28) 0 2 = ['0', '2']) ∧
    (pySlice buf 10 12 ≠ ['1', '0'] → decode_kaifa buf = .noResult) ∧
    (∀ n, parseHexNat (pySlice buf 2 4) = some n → n * 2 ≠ buf.length →
      decode_kaifa buf = .noResult) ∧
    (∀ n, parseHexNat (pySlice buf 2 4) = some n →
      pySlice ((buf.drop 32).drop 28) 0 2 ≠ ['0', '2'] →
      decode_kaifa buf = .noResult) := by
  refine ⟨fun r h => ?_, fun h => ?_, fun n hn hlen => ?_, fun n hn htag => ?_⟩
  · obtain ⟨h1, h2, h3⟩ := decode_kaifa_reading_inv buf r h
    exact ⟨h1, h2, kaifaTryBlock_reading_tag _ _ h3⟩
  · unfold decode_kaifa
    rw [if_pos h]
  · unfold decode_kaifa
    split
    · rfl
    · rw [hn]
      dsimp only
      rw [if_pos hlen]
  · unfold decode_kaifa
    split
    · rfl
    · rw [hn]
      dsimp only
      split
      · rfl
      · unfold kaifaTryBlock
        rw [if_pos htag]

/-- Witness for C4: the concrete record-type 01 frame passes all three
validations and decodes, while single-byte corruptions of its control
field, declared length and data-type tag each make the decoder return no
result. -/
theorem c4_kaifa_validations_witness :
    (pySlice buf01 10 12 = ['1', '0'] ∧
      (∃ n, parseHexNat (pySlice buf01 2 4) = some n ∧ n * 2 = buf01.length) ∧
      pySlice ((buf01.drop 32).drop 28) 0 2 = ['0', '2']) ∧
    decode_kaifa bufBadCtrl = .noResult ∧
    decode_kaifa bufBadLen = .noResult ∧
    decode_kaifa bufBadTag = .noResult :=
  ⟨(c4_kaifa_validations buf01).1
      [("time_stamp", Value.time ⟨2017, 12, 24, 10, 30, 0⟩), ("Effect", Value.int 1234)]
      (by decide),
   (c4_kaifa_validations bufBadCtrl).2.1 (by decide),
   (c4_kaifa_validations bufBadLen).2.2.1 38 (by decide) (by decide),
   (c4_kaifa_validations bufBadTag).2.2.2 37 (by decide) (by decide)⟩

/-- Inversion of a successful try block down to the record-type dispatch:
some parsed timestamp fed the dispatch that produced the reading. -/
theorem kaifaTryBlock_reading_body (B : List Char) (r : Reading)
    (h : kaifaTryBlock B = .reading r) :
    ∃ ts, kaifaBody ts (pySlice (B.drop 28) 2 4) ((B.drop 28).drop 4) = .reading r := by
  unfold kaifaTryBlock at h
  split at h
  · exact absurd h (by simp)
  · split at h
    · split at h
      · exact absurd h (by simp)
      next ts hts =>
        exact ⟨ts, h⟩
    · exact absurd h (by simp)

/-- Field structure of every reading produced by the record-type
dispatch: the record-type tag determines the exact key list, and every
numeric field holds the big-endian integer parsed at its fixed offset. -/
theorem kaifaBody_fields (ts : Timestamp) (pkt txt1 : List Char) (r : Reading)
    (h : kaifaBody ts pkt txt1 = .reading r) :
    (pkt = ['0', '1'] →
      r.map Prod.fst = ["time_stamp", "Effect"] ∧
      List.lookup "Effect" r = (parseHexNat (pySlice txt1 2 10)).map Value.int) ∧
    (pkt = ['0', '9'] →
      r.map Prod.fst =
        ["time_stamp", "Version identifier", "Meter-ID", "Meter type", "Effect"] ∧
      List.lookup "Effect" r =
        (parseHexNat (pySlice (((txt1.drop 18).drop 36).drop 20) 2 10)).map Value.int) ∧
    (pkt = ['0', 'E'] →
      r.map Prod.fst =
        ["time_stamp", "Version identifier", "Meter-ID", "Meter type", "Effect",
         "Cumulative_hourly_active_import_energy",
         "Cumulative_hourly_active_export_energy",
         "Cumulative_hourly_reactive_import_energy",
         "Cumulative_hourly_reactive_export_energy"] ∧
      List.lookup "Effect" r =
        (parseHexNat (pySlice (((txt1.drop 18).drop 36).drop 20) 2 10)).map Value.int ∧
      List.lookup "Cumulative_hourly_active_import_energy" r =
        (parseHexNat
          (pySlice (((((txt1.drop 18).drop 36).drop 20).drop 10).drop 78) 2 10)).map Value.int ∧
      List.lookup "Cumulative_hourly_active_export_energy" r =
        (parseHexNat
          (pySlice ((((((txt1.drop 18).drop 36).drop 20).drop 10).drop 78).drop 10) 2 10)).map Value.int ∧
      List.lookup "Cumulative_hourly_reactive_import_energy" r =
        (parseHexNat
          (pySlice (((((((txt1.drop 18).drop 36).drop 20).drop 10).drop 78).drop 10).drop 10) 2 10)).map Value.int ∧
      List.lookup "Cumulative_hourly_reactive_export_energy" r =
        (parseHexNat
          (pySlice ((((((((txt1.drop 18).drop 36).drop 20).drop 10).drop 78).drop 10).drop 10).drop 10) 2 10)).map Value.int) := by
  unfold kaifaBody at h
  dsimp only at h
  split at h
  next hp1 =>
    split at h
    · exact absurd h (by simp)
    next eff heff =>
      rw [DecodeOut.reading.injEq] at h
      subst h
      refine ⟨fun _ => ⟨rfl, ?_⟩, fun hc => ?_, fun hc => ?_⟩
      · rw [heff]; rfl
      · rw [hp1] at hc; exact absurd hc (by decide)
      · rw [hp1] at hc; exact absurd hc (by decide)
  next hp1 =>
    split at h
    next hp9E =>
      split at h
      · exact absurd h (by simp)
      next vb hvb =>
        split at h
        · exact absurd h (by simp)
        next vcs hvcs =>
          split at h
          · exact absurd h (by simp)
          next mb hmb =>
            split at h
            · exact absurd h (by simp)
            next mcs hmcs =>
              split at h
              · exact absurd h (by simp)
              next tb htb =>
                split at h
                · exact absurd h (by simp)
                next tcs htcs =>
                  split at h
                  · exact absurd h (by simp)
                  next eff heff =>
                    split at h
                    next hpE =>
                      split at h
                      · exact absurd h (by simp)
                      next e1 he1 =>
                        split at h
                        · exact absurd h (by simp)
                        next e2 he2 =>
                          split at h
                          · exact absurd h (by simp)
                          next e3 he3 =>
                            split at h
                            · exact absurd h (by simp)
                            next e4 he4 =>
                              rw [DecodeOut.reading.injEq] at h
                              subst h
                              refine ⟨fun hc => ?_, fun hc => ?_,
                                fun _ => ⟨rfl, ?_, ?_, ?_, ?_, ?_⟩⟩
                              · rw [hpE] at hc; exact absurd hc (by decide)
                              · rw [hpE] at hc; exact absurd hc (by decide)
                              · rw [heff]; rfl
                              · rw [he1]; rfl
                              · rw [he2]; rfl
                              · rw [he3]; rfl
                              · rw [he4]; rfl
                    next hpE =>
                      rw [DecodeOut.reading.injEq] at h
                      subst h
                      have hp9 : pkt = ['0', '9'] := hp9E.resolve_right hpE
                      refine ⟨fun hc => ?_, fun _ => ⟨rfl, ?_⟩, fun hc => ?_⟩
                      · rw [hp9] at hc; exact absurd hc (by decide)
                      · rw [heff]; rfl
                      · rw [hp9] at hc; exact absurd hc (by decide)
    next hp9E =>
      exact absurd h (by simp)

/-- C1: every Reading the Kaifa decoder returns for a record-type 01 frame
has exactly the fields time_stamp and Effect; for record-type 09 exactly
time_stamp, Version identifier, Meter-ID, Meter type and Effect; for
record-type 0E those five plus the four cumulative energy counters — and
each numeric field is the unsigned big-endian integer read at its fixed
digit offset of the token stream. -/
theorem c1_record_type_field_sets (buf : List Char) (r : Reading)
    (h : decode_kaifa buf = .reading r) :
    (pySlice ((buf.drop 32).drop 28) 2 4 = ['0', '1'] →
      r.map Prod.fst = ["time_stamp", "Effect"] ∧
      List.lookup "Effect" r =
        (parseHexNat (pySlice (((buf.drop 32).drop 28).drop 4) 2 10)).map Value.int) ∧
    (pySlice ((buf.drop 32).drop 28) 2 4 = ['0', '9'] →
      r.map Prod.fst =
        ["time_stamp", "Version identifier", "Meter-ID", "Meter type", "Effect"] ∧
      List.lookup "Effect" r =
        (parseHexNat
          (pySlice ((((((buf.drop 32).drop 28).drop 4).drop 18).drop 36).drop 20) 2 10)).map Value.int) ∧
    (pySlice ((buf.drop 32).drop 28) 2 4 = ['0', 'E'] →
      r.map Prod.fst =
        ["time_stamp", "Version identifier", "Meter-ID", "Meter type", "Effect",
         "Cumulative_hourly_active_import_energy",
         "Cumulative_hourly_active_export_energy",
         "Cumulative_hourly_reactive_import_energy",
         "Cumulative_hourly_reactive_export_energy"] ∧
      List.lookup "Effect" r =
        (parseHexNat
          (pySlice ((((((buf.drop 32).drop 28).drop 4).drop 18).drop 36).drop 20) 2 10)).map Value.int ∧
      List.lookup "Cumulative_hourly_active_import_energy" r =
        (parseHexNat
          (pySlice ((((((((buf.drop 32).drop 28).drop 4).drop 18).drop 36).drop 20).drop 10).drop 78) 2 10)).map Value.int ∧
      List.lookup "Cumulative_hourly_active_export_energy" r =
        (parseHexNat
          (pySlice (((((((((buf.drop 32).drop 28).drop 4).drop 18).drop 36).drop 20).drop 10).drop 78).drop 10) 2 10)).map Value.int ∧
      List.lookup "Cumulative_hourly_reactive_import_energy" r =
        (parseHexNat
          (pySlice ((((((((((buf.drop 32).drop 28).drop 4).drop 18).drop 36).drop 20).drop 10).drop 78).drop 10).drop 10) 2 10)).map Value.int ∧
      List.lookup "Cumulative_hourly_reactive_export_energy" r =
        (parseHexNat
          (pySlice (((((((((((buf.drop 32).drop 28).drop 4).drop 18).drop 36).drop 20).drop 10).drop 78).drop 10).drop 10).drop 10) 2 10)).map Value.int) := by
  obtain ⟨-, -, h3⟩ := decode_kaifa_reading_inv buf r h
  obtain ⟨ts, hb⟩ := kaifaTryBlock_reading_body _ _ h3
  exact kaifaBody_fields ts _ _ r hb

/-- Witness for C1: the concrete record-type 01 frame decodes to exactly
the two fields with Effect 1234, and so does the frame with year bytes
0x00 0x11, whose timestamp string only parses through the backtracking
re-segmentation of the standard library matcher. -/
theorem c1_record_type_field_sets_witness :
    (pySlice ((buf01.drop 32).drop 28) 2 4 = ['0', '1'] ∧
      [("time_stamp", Value.time ⟨2017, 12, 24, 10, 30, 0⟩),
        ("Effect", Value.int 1234)].map Prod.fst = ["time_stamp", "Effect"] ∧
      List.lookup "Effect"
        [("time_stamp", Value.time (⟨2017, 12, 24, 10, 30, 0⟩ : Timestamp)),
          ("Effect", Value.int 1234)] = some (Value.int 1234)) ∧
    (pySlice ((bufY17.drop 32).drop 28) 2 4 = ['0', '1'] ∧
      [("time_stamp", Value.time ⟨1217, 4, 2, 10, 30, 0⟩),
        ("Effect", Value.int 1234)].map Prod.fst = ["time_stamp", "Effect"] ∧
      List.lookup "Effect"
        [("time_stamp", Value.time (⟨1217, 4, 2, 10, 30, 0⟩ : Timestamp)),
          ("Effect", Value.int 1234)] = some (Value.int 1234)) :=
  have hfield := (c1_record_type_field_sets buf01
    [("time_stamp", Value.time ⟨2017, 12, 24, 10, 30, 0⟩), ("Effect", Value.int 1234)]
    (by decide)).1 (by decide)
  have hfield17 := (c1_record_type_field_sets bufY17
    [("time_stamp", Value.time ⟨1217, 4, 2, 10, 30, 0⟩), ("Effect", Value.int 1234)]
    (by decide)).1 (by decide)
  ⟨⟨by decide, hfield.1, hfield.2⟩, ⟨by decide, hfield17.1, hfield17.2⟩⟩

end HanSolo
